import Mathlib

/-!
Shallow embedding of the tmp-weather repository core: the forecast storage
layer (internal/tmpweather/storage/weather_forecast.go together with the
schema in internal/pkg/db/postgres), the forecast pipeline and client
(internal/tmpweather/weather/forecaster.go), and the dispatcher glue that
consumes them (internal/tmpweather/telegram/bot.go).

Conventions of the embedding:
* Go `float64` values are modelled as rationals, `int`/`int64` as `Int`,
  `time.Time` as a `Nat` tick count.
* A Go `error` value is `Option E` (`none` = nil).
* Go runtime panics are modelled with `Except GoPanic`.
* The storage engine is modelled as the list of committed rows of the
  `forecasts` table; its CHECK constraints are taken from the schema file.
-/

/-- Runtime panics of the Go program that the embedding tracks. -/
inductive GoPanic where
  /-- Dereference of a nil pointer (e.g. `resp.StatusCode` with `resp == nil`). -/
  | nilPointerDeref
  /-- Slice index out of range (e.g. `f.Weather[0]` on an empty slice). -/
  | indexOutOfRange
deriving DecidableEq, Repr

/-! ## Storage layer: internal/tmpweather/storage/weather_forecast.go -/

/-- Go struct `WeatherForecast` (weather_forecast.go lines 39-47): the record
stored in the repository. -/
structure WeatherForecast where
  madeAt : Nat
  city : String
  desc : String
  temp : ℚ
  hum : Int
  wind : ℚ
  msgID : Int
deriving DecidableEq, Repr

/-- Error kinds produced by the storage engine for a single SQL statement.
`checkViolation` is a violation of one of the CHECK constraints of the
`forecasts` table; this is the spec's `ValidationError` kind (the record
invariant is enforced by the schema, not by Go code). -/
inductive DbErr where
  | checkViolation
  | otherDb (msg : String)
deriving DecidableEq, Repr

/-- Errors observable from the storage component, mirroring the error values
built in weather_forecast.go. -/
inductive StorageErr where
  /-- `fmt.Errorf("unable to start transaction: %v", err.Error())`. -/
  | beginTx (msg : String)
  /-- An error returned by `tx.Exec` or `row.Scan` (a storage-engine error). -/
  | db (e : DbErr)
  /-- `ErrNoData = errors.New("no data")` (weather_forecast.go line 19). -/
  | noData
  /-- A failed `tx.Rollback`. -/
  | rollback (msg : String)
  /-- `fmt.Errorf("failed to commit tx: %v", err)` from `finishTransaction`.
  Note: the format argument is the (nil) original `err`, not `commitErr`,
  so the commit error's own message is never included. -/
  | commitFailed
  /-- `errors.Join(err, rollbackErr)` from `finishTransaction`. -/
  | join (e1 e2 : StorageErr)
deriving DecidableEq, Repr

/-- CHECK constraints of the `forecasts` table
(schema: `city text NOT NULL CHECK(LENGTH(city) > 0)`,
`hum int NOT NULL CHECK(hum > 0.0)`, `wind real NOT NULL CHECK(wind > 0.0)`). -/
def rowChecks (f : WeatherForecast) : Prop :=
  0 < f.city.length ∧ 0 < f.hum ∧ 0 < f.wind

instance (f : WeatherForecast) : Decidable (rowChecks f) := by
  unfold rowChecks; infer_instance

/-- Effect of `tx.Exec(ctx, upsertWeatherForecast, ...)` (weather_forecast.go
lines 71-79) on the committed table state: a plain INSERT of one row, rejected
by the storage engine when a CHECK constraint fails, in which case the table
is unchanged (the statement inserts nothing). -/
def execInsert (table : List WeatherForecast) (f : WeatherForecast) :
    Except DbErr (List WeatherForecast) :=
  if rowChecks f then .ok (table ++ [f]) else .error .checkViolation

/-- Failure behaviour of the transaction backend for one repository call:
whether `BeginTx`, `Commit` and `Rollback` fail, with their messages. -/
structure TxBackend where
  beginErr : Option String
  commitErr : Option String
  rollbackErr : Option String
deriving DecidableEq, Repr

/-- A backend on which every transaction operation succeeds. -/
def cleanBackend : TxBackend := ⟨none, none, none⟩

/-- Go `finishTransaction` (weather_forecast.go lines 244-258), as a function
of the rollback/commit outcomes and of the `err` argument:
if `err` is non-nil the transaction is rolled back, joining a rollback
failure with `err`; otherwise it is committed, a failed commit yielding
`fmt.Errorf("failed to commit tx: %v", err)` — which interpolates the nil
`err`, not `commitErr`. -/
def finishTransaction (rollbackErr commitErr : Option String)
    (err : Option StorageErr) : Option StorageErr :=
  match err with
  | some e =>
    match rollbackErr with
    | some re => some (.join e (.rollback re))
    | none => some e
  | none =>
    match commitErr with
    | some _ => some .commitFailed
    | none => none

/-- Go `(*WeatherForecastRepo).Upsert` (weather_forecast.go lines 57-82):
returned error and resulting committed table state.

Control flow of the source: `BeginTx` failure returns early (before the
defer is registered). Otherwise `_, err = tx.Exec(...)` runs and the
function ends with `return err`. Because `Upsert`'s return value is
UNNAMED, `return err` fixes the returned error to the `Exec` error at that
point; the deferred `err = r.finishTransaction(ctx, tx, err)` then only
reassigns the local variable, so the value of `finishTransaction` (commit
failure, or the original error joined with a rollback failure) never
reaches the caller. State: on `Exec` failure the deferred call rolls the
transaction back, so the table is unchanged; on `Exec` success the deferred
call commits — if the commit fails nothing is made durable. -/
def Upsert (b : TxBackend) (table : List WeatherForecast) (f : WeatherForecast) :
    Option StorageErr × List WeatherForecast :=
  match b.beginErr with
  | some msg => (some (.beginTx msg), table)
  | none =>
    match execInsert table f with
    | .error e => (some (.db e), table)
    | .ok table2 =>
      match b.commitErr with
      | some _ => (none, table)
      | none => (none, table2)

/-- The value computed by `Upsert`'s deferred
`err = r.finishTransaction(ctx, tx, err)` (weather_forecast.go lines 67-69),
which is discarded because the return value is unnamed (only defined for a
successful `BeginTx`, otherwise the defer is never registered). -/
def UpsertDeferred (b : TxBackend) (table : List WeatherForecast)
    (f : WeatherForecast) : Option StorageErr :=
  finishTransaction b.rollbackErr b.commitErr
    (match execInsert table f with
     | .error e => some (.db e)
     | .ok _ => none)

/-- Go struct `WeatherForecastStat` (weather_forecast.go lines 85-96), with
the nested `TopRecords` struct flattened. -/
structure WeatherForecastStat where
  maxTempCity : String
  maxTemp : ℚ
  maxHumCity : String
  maxHum : Int
  maxWindCity : String
  maxWind : ℚ
  firstRecordAt : Nat
  total : Nat
deriving DecidableEq, Repr

/-- Go zero value of `WeatherForecastStat` (`var stat WeatherForecastStat`). -/
def zeroStat : WeatherForecastStat :=
  { maxTempCity := "", maxTemp := 0, maxHumCity := "", maxHum := 0,
    maxWindCity := "", maxWind := 0, firstRecordAt := 0, total := 0 }

/-- The distinct cities of the table in order of first appearance, modelling
the groups produced by `GROUP BY city`. -/
def distinctCities (table : List WeatherForecast) : List String :=
  table.foldl (fun acc r => if acc.contains r.city then acc else acc ++ [r.city]) []

/-- Maximum of a metric over a list of rows (`MAX(DISTINCT m)` of one group);
`none` on an empty group. -/
def rowsMax {α : Type} [LinearOrder α] (metric : WeatherForecast → α)
    (rows : List WeatherForecast) : Option α :=
  match rows.map metric with
  | [] => none
  | v :: vs => some (vs.foldl (fun m w => if m < w then w else m) v)

/-- The `(city, per-city maximum)` pairs of a metric, one per `GROUP BY city`
group. -/
def topPairs {α : Type} [LinearOrder α] (metric : WeatherForecast → α)
    (table : List WeatherForecast) : List (String × α) :=
  (distinctCities table).filterMap fun c =>
    (rowsMax metric (table.filter fun r => r.city == c)).map fun v => (c, v)

/-- The pair with the maximal value, modelling `ORDER BY value DESC LIMIT 1`.
When several groups share the maximum the storage engine's choice is
arbitrary (spec section 9 flags this); the embedding fixes first-wins. -/
def argmaxFirst {α : Type} [LinearOrder α] :
    List (String × α) → Option (String × α)
  | [] => none
  | p :: ps => some (ps.foldl (fun best q => if best.2 < q.2 then q else best) p)

/-- The `top_temp`/`top_hum`/`top_wind` subquery of `getWeatherForecastStat`
for one metric: per-city maxima, ordered by value descending, first row. -/
def topOfMetric {α : Type} [LinearOrder α] (metric : WeatherForecast → α)
    (table : List WeatherForecast) : Option (String × α) :=
  argmaxFirst (topPairs metric table)

/-- Earliest `made_at` of the table: the `first_record` subquery
(`ORDER BY made_at ASC LIMIT 1`); no row when the table is empty. -/
def minMadeAt : List WeatherForecast → Option Nat
  | [] => none
  | x :: xs => some (xs.foldl (fun m r => if r.madeAt < m then r.madeAt else m) x.madeAt)

/-- Result row of the `getWeatherForecastStat` query (weather_forecast.go
lines 133-201): the cross join of the `first_record`, `total_records`,
`top_temp`, `top_hum` and `top_wind` subqueries. On an empty table the
`first_record` and `top_*` subqueries each produce zero rows, so the cross
join is empty and the query returns no row (`none`); on a non-empty table
every subquery produces exactly one row. -/
def statQuery : List WeatherForecast → Option WeatherForecastStat
  | [] => none
  | x :: xs =>
    some
    { firstRecordAt := xs.foldl (fun m r => if r.madeAt < m then r.madeAt else m) x.madeAt
      total := (x :: xs).length
      maxTempCity := ((topOfMetric (·.temp) (x :: xs)).getD ("", 0)).1
      maxTemp := ((topOfMetric (·.temp) (x :: xs)).getD ("", 0)).2
      maxHumCity := ((topOfMetric (·.hum) (x :: xs)).getD ("", 0)).1
      maxHum := ((topOfMetric (·.hum) (x :: xs)).getD ("", 0)).2
      maxWindCity := ((topOfMetric (·.wind) (x :: xs)).getD ("", 0)).1
      maxWind := ((topOfMetric (·.wind) (x :: xs)).getD ("", 0)).2 }

/-- The `row.Scan` step of `Stat` (weather_forecast.go lines 224-237): a
missing row yields `pgx.ErrNoRows`, which the source maps to `ErrNoData`
(`if err != nil && errors.Is(err, pgx.ErrNoRows) { err = ErrNoData }`);
on that path `stat` keeps its zero value. -/
def statScan (table : List WeatherForecast) :
    WeatherForecastStat × Option StorageErr :=
  match statQuery table with
  | none => (zeroStat, some .noData)
  | some s => (s, none)

/-- Go `(*WeatherForecastRepo).Stat` (weather_forecast.go lines 204-240).
As in `Upsert`, the return values are unnamed, so `return stat, err` fixes
them to the scan outcome and the deferred
`err = r.finishTransaction(ctx, tx, err)` only reassigns the local `err`:
the commit/rollback outcome never reaches the caller. -/
def Stat (b : TxBackend) (table : List WeatherForecast) :
    WeatherForecastStat × Option StorageErr :=
  match b.beginErr with
  | some msg => (zeroStat, some (.beginTx msg))
  | none => statScan table

/-- The discarded value of `Stat`'s deferred `finishTransaction` call
(weather_forecast.go lines 214-216). -/
def StatDeferred (b : TxBackend) (table : List WeatherForecast) :
    Option StorageErr :=
  finishTransaction b.rollbackErr b.commitErr (statScan table).2

/-! ## Weather pipeline and client: internal/tmpweather/weather/forecaster.go -/

/-- Errors of the weather package: the three sentinel errors of
forecaster.go lines 50-54 plus the wrapped errors built in `worker`. -/
inductive WErr where
  /-- `ErrCityNotFound = errors.New("city not found")`. -/
  | cityNotFound
  /-- `ErrExternal = errors.New("external error")`. -/
  | externalErr
  /-- `ErrCorruptedCall = errors.New("corrupted call")`. -/
  | corruptedCall
  /-- The raw error of `http.NewRequestWithContext`. -/
  | newReq (msg : String)
  /-- `fmt.Errorf("read response body: %v", err)`. -/
  | readBody (msg : String)
  /-- `fmt.Errorf("unmarshal response body: %v", err)` — the wrapped JSON
  decode error. -/
  | unmarshal (msg : String)
deriving DecidableEq, Repr

/-- The `Main` part of the Go `Forecast` struct (forecaster.go lines 162-166). -/
structure ForecastMain where
  temp : ℚ
  feelsLike : ℚ
  humidity : Int
deriving DecidableEq, Repr

/-- One element of the `Weather` slice of the Go `Forecast` struct. -/
structure WeatherEntry where
  description : String
deriving DecidableEq, Repr

/-- The `Wind` part of the Go `Forecast` struct. -/
structure ForecastWind where
  speed : ℚ
deriving DecidableEq, Repr

/-- Go struct `Forecast` (forecaster.go lines 160-174). The `Err` field
exists in the source struct (it is never assigned by the program). -/
structure Forecast where
  madeAt : Nat
  main : ForecastMain
  weather : List WeatherEntry
  wind : ForecastWind
  err : Option WErr
deriving DecidableEq, Repr

/-- Go zero value of `Forecast` (`Forecast{}` / `var forecast Forecast`). -/
def zeroForecast : Forecast :=
  { madeAt := 0, main := { temp := 0, feelsLike := 0, humidity := 0 },
    weather := [], wind := { speed := 0 }, err := none }

/-- Go struct `forecastResult` (forecaster.go lines 57-60): the embedded
`Forecast` plus the `Err` field. -/
structure forecastResult where
  forecast : Forecast
  resErr : Option WErr
deriving DecidableEq, Repr

/-- Go slice indexing `xs[i]`: panics with an index-out-of-range runtime
error when `i` is not a valid index. -/
def goIndex {α : Type} (xs : List α) (i : Nat) : Except GoPanic α :=
  match xs.get? i with
  | some v => .ok v
  | none => .error .indexOutOfRange

/-- Outcome of reading the response body (`io.ReadAll(resp.Body)`). -/
inductive BodyOutcome where
  | readErr (msg : String)
  | body (contents : String)
deriving DecidableEq, Repr

/-- Outcome of `client.Do(req)`: either a transport-level failure (in which
case the returned `*http.Response` is nil) or a response with a status code
and a body behaviour. -/
inductive HttpOutcome where
  | transportErr (msg : String)
  | response (status : Nat) (body : BodyOutcome)
deriving DecidableEq, Repr

/-- Outcome of `json.Unmarshal(body, &forecast)`: on failure it carries the
(possibly partially populated) value left in the `forecast` variable. -/
inductive DecodeOutcome where
  | ok (f : Forecast)
  | fail (msg : String) (leftover : Forecast)
deriving DecidableEq, Repr

/-- Environment of one iteration of the worker loop for one city name:
the outcome of request construction, of the HTTP call, and of JSON
decoding of the (successfully read) body. -/
structure RequestEnv where
  newReqErr : Option String
  http : HttpOutcome
  decodeOf : DecodeOutcome
deriving DecidableEq, Repr

/-- One iteration of the worker loop body for one received city name
(forecaster.go lines 93-151), returning the ordered list of results the
worker sends on `out`, or the runtime panic that aborts the goroutine.

Faithful to the source control flow:
* a failed `http.NewRequestWithContext` sends an error result but does NOT
  `break`, falling through to `client.Do(req)` with `req == nil`;
* the response log line reads `resp.StatusCode` BEFORE the `err` check, so
  when `client.Do` fails (nil `resp`) the goroutine panics with a nil
  pointer dereference and the `ErrCorruptedCall` branch is unreachable;
* status 404 maps to `ErrCityNotFound`, 400 and 502 map to `ErrExternal`
  (sent, then `break`);
* a body read failure sends the wrapped read error, then `break`;
* a JSON decode failure sends the wrapped unmarshal error but does NOT
  `break`, falling through to `forecast.MadeAt = time.Now()` and the
  success send, so a second, success-shaped result follows. -/
def workerHandle (env : RequestEnv) (now : Nat) :
    Except GoPanic (List forecastResult) :=
  let sends0 : List forecastResult :=
    match env.newReqErr with
    | some e => [{ forecast := zeroForecast, resErr := some (.newReq e) }]
    | none => []
  match env.http with
  | .transportErr _ => .error .nilPointerDeref
  | .response status body =>
    if status == 404 then
      .ok (sends0 ++ [{ forecast := zeroForecast, resErr := some .cityNotFound }])
    else if status == 400 || status == 502 then
      .ok (sends0 ++ [{ forecast := zeroForecast, resErr := some .externalErr }])
    else
      match body with
      | .readErr e =>
        .ok (sends0 ++ [{ forecast := zeroForecast, resErr := some (.readBody e) }])
      | .body _ =>
        match env.decodeOf with
        | .fail e leftover =>
          .ok (sends0 ++
            [{ forecast := zeroForecast, resErr := some (.unmarshal e) },
             { forecast := { leftover with madeAt := now }, resErr := none }])
        | .ok f =>
          .ok (sends0 ++ [{ forecast := { f with madeAt := now }, resErr := none }])

/-- Startup of the worker goroutine (forecaster.go lines 69-75): when the
`OPENWEATHERMAP_API_TOKEN` environment variable is empty the goroutine
logs and returns before entering its loop, and `defer close(out)` closes
the response channel; it never reads from the request channel. -/
def workerExitsBeforeLoop (apiToken : String) : Bool :=
  apiToken.length == 0

/-- State of the shared response channel as seen by a `Forecast` caller. -/
inductive ResChan where
  /-- The channel has been closed (worker goroutine returned). -/
  | closed
  /-- The worker will deliver this result to the receiver. -/
  | willDeliver (r : forecastResult)
deriving DecidableEq, Repr

/-- Go receive `res := <-f.res`: a receive on a closed channel yields the
zero value of `forecastResult` immediately. -/
def recvRes : ResChan → forecastResult
  | .closed => { forecast := zeroForecast, resErr := none }
  | .willDeliver r => r

/-- Observable outcome of one `Forecast` call. -/
inductive CallOutcome where
  /-- The call never returns: both select cases stay unready. -/
  | blocked
  /-- The call returns `(res.Forecast, res.Err)`. -/
  | returns (f : Forecast) (e : Option WErr)
deriving DecidableEq, Repr

/-- Go `(*CityForecaster).Forecast` (forecaster.go lines 39-47):
`select { case <-ctx.Done(): case f.msgs <- cityName: }` followed by
`res := <-f.res; return res.Forecast, res.Err`. The select completes when
the context is done or some goroutine receives on the unbuffered `msgs`
channel; with neither ready the call blocks. -/
def ForecastCall (ctxDone : Bool) (msgsHasReceiver : Bool) (res : ResChan) :
    CallOutcome :=
  if ctxDone || msgsHasReceiver then
    let r := recvRes res
    .returns r.forecast r.resErr
  else .blocked

/-- Go `(Forecast).ToMsg` (forecaster.go lines 177-188): builds the chat
message text; the very first line indexes `f.Weather[0]` without a bounds
check. Numeric rendering (`%.2f`, `%d`) is modelled by `toString`. -/
def ToMsg (f : Forecast) : Except GoPanic String :=
  match goIndex f.weather 0 with
  | .error p => .error p
  | .ok w =>
    .ok (w.description ++ "\n\n" ++
      "temp: " ++ toString f.main.temp ++ " C\n" ++
      "feels like: " ++ toString f.main.feelsLike ++ " C\n\n" ++
      "hum: " ++ toString f.main.humidity ++ " %\n" ++
      "wind: " ++ toString f.wind.speed ++ " m/s\n")

/-- The storage record the dispatcher builds from a forecast
(internal/tmpweather/telegram/bot.go lines 120-128): it also indexes
`forecast.Weather[0].Description` without a bounds check. -/
def handleBuildRecord (msgID : Int) (cityName : String) (f : Forecast) :
    Except GoPanic WeatherForecast :=
  match goIndex f.weather 0 with
  | .error p => .error p
  | .ok w =>
    .ok { msgID := msgID, city := cityName, desc := w.description,
          temp := f.main.temp, hum := f.main.humidity,
          wind := f.wind.speed, madeAt := f.madeAt }

/-! ## Claims -/

/-- C1: the spec says a failed commit after a successful insert (and a failed
`Stat` commit) is reported as a distinct error, and the system's intent
(`finishTransaction` building exactly that error, assigned in a defer)
agrees — but `Upsert` and `Stat` have unnamed return values, so `return err`
fixes the returned error before the deferred
`err = r.finishTransaction(ctx, tx, err)` runs: both calls return nil even
though the commit failed, and the distinct commit error computed by
`finishTransaction` (`UpsertDeferred` / `StatDeferred`) is discarded. -/
theorem upsert_commit_failure_returns_nil :
    (Upsert ⟨none, some "commit refused", none⟩ []
      ⟨7, "Minsk", "clear", 20, 50, 3, 1⟩).1 = none ∧
    UpsertDeferred ⟨none, some "commit refused", none⟩ []
      ⟨7, "Minsk", "clear", 20, 50, 3, 1⟩ = some .commitFailed ∧
    (Stat ⟨none, some "commit refused", none⟩
      [⟨7, "Minsk", "clear", 20, 50, 3, 1⟩]).2 = none ∧
    StatDeferred ⟨none, some "commit refused", none⟩
      [⟨7, "Minsk", "clear", 20, 50, 3, 1⟩] = some .commitFailed := by
  decide

/-- C2: the claim says the worker writes exactly one `forecastResult` per
request for every outcome. It fails on a JSON decode error: that branch
lacks a `break`, so after sending the wrapped unmarshal error the worker
falls through to `forecast.MadeAt = time.Now()` and sends a second,
success-shaped result with nil error. A success outcome does send exactly
one result. -/
theorem worker_decode_failure_double_send :
    workerHandle ⟨none, .response 200 (.body "garbage"),
        .fail "invalid json" zeroForecast⟩ 5 =
      .ok [⟨zeroForecast, some (.unmarshal "invalid json")⟩,
           ⟨{ zeroForecast with madeAt := 5 }, none⟩] ∧
    ([⟨zeroForecast, some (.unmarshal "invalid json")⟩,
      ⟨{ zeroForecast with madeAt := 5 }, none⟩] : List forecastResult).length = 2 ∧
    workerHandle ⟨none, .response 200 (.body "ok"), .ok zeroForecast⟩ 5 =
      .ok [⟨{ zeroForecast with madeAt := 5 }, none⟩] :=
  ⟨rfl, rfl, rfl⟩

/-- C3: the claim's status mappings hold — 404 yields `ErrCityNotFound`,
400 and 502 yield `ErrExternal`, a JSON decode failure yields the wrapped
unmarshal error — but a transport-level failure of `client.Do` does NOT
yield `ErrCorruptedCall`: the response log line reads `resp.StatusCode`
before the error check, and `resp` is nil on a transport failure, so the
worker goroutine panics with a nil pointer dereference and never reaches
the `ErrCorruptedCall` branch. -/
theorem worker_transport_error_nil_deref :
    workerHandle ⟨none, .transportErr "dial tcp: connection refused",
        .ok zeroForecast⟩ 7 = .error .nilPointerDeref ∧
    workerHandle ⟨none, .response 404 (.body ""), .ok zeroForecast⟩ 7 =
      .ok [⟨zeroForecast, some .cityNotFound⟩] ∧
    workerHandle ⟨none, .response 400 (.body ""), .ok zeroForecast⟩ 7 =
      .ok [⟨zeroForecast, some .externalErr⟩] ∧
    workerHandle ⟨none, .response 502 (.body ""), .ok zeroForecast⟩ 7 =
      .ok [⟨zeroForecast, some .externalErr⟩] ∧
    workerHandle ⟨none, .response 200 (.body "garbled"),
        .fail "unexpected token" zeroForecast⟩ 7 =
      .ok [⟨zeroForecast, some (.unmarshal "unexpected token")⟩,
           ⟨{ zeroForecast with madeAt := 7 }, none⟩] :=
  ⟨rfl, rfl, rfl, rfl, rfl⟩

/-- C4: the claim says a failed rollback is joined with the original error
in what the caller receives. `finishTransaction` does build
`errors.Join(err, rollbackErr)`, but the deferred assignment targets only
the local `err` (the return value is unnamed), so the caller receives just
the original operation error and the joined error is discarded. The second
half of the claim — the rollback error never replaces the original — does
hold, precisely because the caller always gets the original error. -/
theorem upsert_rollback_join_dropped :
    Upsert ⟨none, none, some "rollback refused"⟩ [] ⟨0, "", "", 1, 1, 1, 1⟩ =
      (some (.db .checkViolation), []) ∧
    UpsertDeferred ⟨none, none, some "rollback refused"⟩ [] ⟨0, "", "", 1, 1, 1, 1⟩ =
      some (.join (.db .checkViolation) (.rollback "rollback refused")) ∧
    StorageErr.db .checkViolation ≠
      StorageErr.join (.db .checkViolation) (.rollback "rollback refused") := by
  decide

/-- C5: an `Upsert` of a record with an empty city, non-positive humidity or
non-positive wind fails with the schema CHECK-constraint violation — the
spec's `ValidationError` kind — and leaves the committed record set
unchanged (the failed statement inserts nothing and the transaction is
rolled back). -/
theorem upsert_invalid_record_validation
    (t : List WeatherForecast) (f : WeatherForecast)
    (h : f.city = "" ∨ f.hum ≤ 0 ∨ f.wind ≤ 0) :
    Upsert cleanBackend t f = (some (.db .checkViolation), t) := by
  have hnc : ¬ rowChecks f := by
    rintro ⟨h1, h2, h3⟩
    rcases h with h | h | h
    · rw [h] at h1; simp at h1
    · omega
    · exact absurd h3 (not_lt.mpr h)
  simp [Upsert, cleanBackend, execInsert, hnc]

/-- Witness for C5 at a concrete record with an empty city. -/
theorem upsert_invalid_record_validation_witness :
    Upsert cleanBackend [] ⟨0, "", "x", 1, 1, 1, 1⟩ =
      (some (.db .checkViolation), []) :=
  upsert_invalid_record_validation [] ⟨0, "", "x", 1, 1, 1, 1⟩ (Or.inl rfl)

/-- C6: on an empty `forecasts` table the stat query's cross join produces
no row, `row.Scan` fails with `pgx.ErrNoRows`, and `Stat` maps that to
`ErrNoData` — distinguished from a generic query failure — returning the
zero-value statistics record. -/
theorem stat_empty_table_noData :
    Stat cleanBackend [] = (zeroStat, some .noData) := by
  decide

/-- C7: for a table holding exactly records for city A (temp 30), B (hum 90),
C (wind 12) and baseline D, `Stat` reports per-metric record holders
temperature to A at 30, humidity to B at 90, wind to C at 12, a total of 4
records, and the earliest inserted timestamp as `firstRecordAt`. -/
theorem stat_concrete_record_holders :
    Stat cleanBackend
      [⟨10, "A", "max temp", 30, 2, 3, 1⟩,
       ⟨20, "B", "max hum", 1, 90, 3, 2⟩,
       ⟨30, "C", "max wind", 1, 2, 12, 3⟩,
       ⟨40, "D", "casual weather", 1, 2, 3, 4⟩] =
    ({ maxTempCity := "A", maxTemp := 30, maxHumCity := "B", maxHum := 90,
       maxWindCity := "C", maxWind := 12, firstRecordAt := 10, total := 4 },
     none) := by
  decide

/-- Folding the running-minimum step of the `first_record` subquery over a
table extended with one more row steps the accumulated minimum once. -/
theorem foldl_madeAt_append (init : Nat) (l : List WeatherForecast)
    (q : WeatherForecast) :
    List.foldl (fun m r => if r.madeAt < m then r.madeAt else m) init (l ++ [q]) =
    if q.madeAt < List.foldl (fun m r => if r.madeAt < m then r.madeAt else m) init l
    then q.madeAt
    else List.foldl (fun m r => if r.madeAt < m then r.madeAt else m) init l := by
  induction l generalizing init with
  | nil => rfl
  | cons a as ih =>
    simp only [List.cons_append, List.foldl_cons]
    exact ih _

/-- C8: after a successful insert of a valid record into any table state on
which `Stat` succeeds, a subsequent stat query reports `total` exactly one
greater — unconditionally — and additionally the same `firstRecordAt`
provided the new record's timestamp is not earlier than the existing
minimum. -/
theorem stat_after_insert
    (t : List WeatherForecast) (r : WeatherForecast) (s0 : WeatherForecastStat)
    (hr : rowChecks r) (h0 : statQuery t = some s0) :
    Upsert cleanBackend t r = (none, t ++ [r]) ∧
    ∃ s1, statQuery (t ++ [r]) = some s1 ∧
      s1.total = s0.total + 1 ∧
      (s0.firstRecordAt ≤ r.madeAt → s1.firstRecordAt = s0.firstRecordAt) := by
  cases t with
  | nil => simp [statQuery] at h0
  | cons x xs =>
    refine ⟨by simp [Upsert, cleanBackend, execInsert, hr], ?_⟩
    simp only [statQuery, Option.some.injEq] at h0
    subst h0
    refine ⟨_, rfl, ?_, ?_⟩
    · simp [List.length_append]
    · intro hts
      show List.foldl (fun m q => if q.madeAt < m then q.madeAt else m)
          x.madeAt (xs ++ [r]) =
        List.foldl (fun m q => if q.madeAt < m then q.madeAt else m) x.madeAt xs
      rw [foldl_madeAt_append]
      exact if_neg (not_lt.mpr hts)

/-- Witness for C8: a one-row table for city D and a later, valid record for
city E. -/
theorem stat_after_insert_witness :
    Upsert cleanBackend [⟨10, "D", "casual", 1, 2, 3, 4⟩]
        ⟨20, "E", "sunny", 5, 6, 7, 8⟩ =
      (none, [⟨10, "D", "casual", 1, 2, 3, 4⟩, ⟨20, "E", "sunny", 5, 6, 7, 8⟩]) ∧
    ∃ s1, statQuery [⟨10, "D", "casual", 1, 2, 3, 4⟩, ⟨20, "E", "sunny", 5, 6, 7, 8⟩] =
        some s1 ∧
      s1.total = 1 + 1 ∧ ((10 : Nat) ≤ 20 → s1.firstRecordAt = 10) :=
  stat_after_insert [⟨10, "D", "casual", 1, 2, 3, 4⟩] ⟨20, "E", "sunny", 5, 6, 7, 8⟩
    ⟨"D", 1, "D", 2, "D", 3, 10, 1⟩ (by decide) (by decide)

/-- C9 counterexample: the claim says that with an empty API token every
`Forecast` call returns a zero-value `Forecast` and a nil error. But after
the worker goroutine has exited, nothing ever receives on the unbuffered
`msgs` channel, so a call whose context is not yet done blocks forever in
the request-send select instead of returning. -/
theorem forecast_emptyToken_live_ctx_blocks :
    workerExitsBeforeLoop "" = true ∧
    ForecastCall false false ResChan.closed = CallOutcome.blocked ∧
    CallOutcome.blocked ≠ CallOutcome.returns zeroForecast none := by
  refine ⟨rfl, rfl, ?_⟩
  decide

/-- C9 amended: with an empty `OPENWEATHERMAP_API_TOKEN` the worker
goroutine exits before its loop (closing the response channel and never
reading the request channel); a `Forecast` call then blocks while its
context is live, and once the context is done it completes via the
`ctx.Done()` select case and the receive on the closed response channel
yields the zero `forecastResult` — the call returns a zero-value `Forecast`
and a nil error, indistinguishable from a successful forecast. -/
theorem forecast_emptyToken_done_ctx_returns_zero :
    workerExitsBeforeLoop "" = true ∧
    ∀ d : Bool, ForecastCall d false ResChan.closed =
      if d then CallOutcome.returns zeroForecast none else CallOutcome.blocked := by
  refine ⟨rfl, ?_⟩
  intro d
  cases d <;> rfl

/-- C10: `Forecast.ToMsg` and the dispatcher's record construction both
index `Weather[0]` without a bounds check, so on any forecast whose
`Weather` slice is empty they panic with an index-out-of-range runtime
error instead of returning a value. -/
theorem toMsg_empty_weather_panics (f : Forecast) (h : f.weather = []) :
    ToMsg f = .error .indexOutOfRange ∧
    ∀ (id : Int) (city : String),
      handleBuildRecord id city f = .error .indexOutOfRange := by
  constructor
  · simp [ToMsg, goIndex, h]
  · intro id city
    simp [handleBuildRecord, goIndex, h]

/-- Witness for C10 at the zero-value forecast, whose `Weather` slice is
empty — exactly what a provider payload with no weather entries decodes to. -/
theorem toMsg_empty_weather_panics_witness :
    ToMsg zeroForecast = .error .indexOutOfRange ∧
    ∀ (id : Int) (city : String),
      handleBuildRecord id city zeroForecast = .error .indexOutOfRange :=
  toMsg_empty_weather_panics zeroForecast rfl
